import Mathlib

/-!
Shallow embedding of the ChatInterface component
(src/src/components/ChatInterface.tsx) of the e6data AI-database frontend.

The component owns all session state in React useState hooks: the message
log, the pending input text, the in-flight flag, the staged file list, the
template-banner toggle and the cached backend chat history.  Each event
handler of the source is embedded as a pure state-transition function;
the one asynchronous backend exchange is embedded by passing the transport
outcome as an explicit argument, and the transport calls issued by a
handler are returned alongside the new state.  Timestamps and object URLs
are abstracted as a Nat clock and an injected URL-assignment function.
-/

namespace ChatInterface

/-- A file as delivered by the browser file picker: name, byte size, MIME type. -/
structure SelFile where
  name : String
  size : Nat
  type : String
deriving DecidableEq

/-- Display attachment built from a selected file (source: FileAttachment). -/
structure FileAttachment where
  id : String
  name : String
  size : Nat
  type : String
  url : String
deriving DecidableEq

/-- Sender tag of a transcript entry. -/
inductive Sender where
  | user
  | bot
deriving DecidableEq

/-- One transcript entry (source: Message).  Timestamps are abstract Nat ticks. -/
structure Message where
  id : String
  text : String
  sender : Sender
  timestamp : Nat
  files : Option (List FileAttachment)
deriving DecidableEq

/-- One turn of the backend conversational memory (source: ChatMessage). -/
structure ChatMessage where
  role : String
  content : String
deriving DecidableEq

/-- Backend reply shape (source: ChatResponse); `error` is an optional field. -/
structure ChatResponse where
  message : String
  chat_history : List ChatMessage
  error : Option String
deriving DecidableEq

/-- The component state held in the useState hooks of ChatInterface. -/
structure SessionState where
  messages : List Message
  inputValue : String
  isLoading : Bool
  selectedFiles : List SelFile
  showJsonTemplate : Bool
  chatHistory : List ChatMessage
deriving DecidableEq

/-- The whitespace class trimmed by `String.prototype.trim` (the characters
the component can receive from a text input). -/
def isWsChar (c : Char) : Bool :=
  c = ' ' ∨ c = '\t' ∨ c = '\n' ∨ c = '\r'

/-- Embeds `String.prototype.trim`: strip leading and trailing whitespace. -/
def jsTrim (s : String) : String :=
  String.mk (((s.data.dropWhile isWsChar).reverse.dropWhile isWsChar).reverse)

/-- Lowering of one ASCII character, as `String.prototype.toLowerCase` acts on
the ASCII file names involved. -/
def charLower (c : Char) : Char :=
  if 65 ≤ c.toNat ∧ c.toNat ≤ 90 then Char.ofNat (c.toNat + 32) else c

/-- Embeds `String.prototype.toLowerCase`. -/
def jsToLower (s : String) : String :=
  String.mk (s.data.map charLower)

/-- Embeds `String.prototype.endsWith`. -/
def jsEndsWith (s suffix : String) : Bool :=
  List.isSuffixOf suffix.data s.data

/-- Embeds `file.name.toLowerCase().endsWith(".json")` as used at lines 119-121
and 227-229. -/
def isJsonName (name : String) : Bool :=
  jsEndsWith (jsToLower name) ".json"

/-- The JSON-named files of a selection, in order. -/
def jsonNamedFiles (files : List SelFile) : List SelFile :=
  files.filter (fun f => isJsonName f.name)

/-- Result of the file-selection handler: the new state plus whether the
rejected-selection warning (`alert`) was raised. -/
structure FileSelectResult where
  state : SessionState
  warned : Bool
deriving DecidableEq

/-- handleFileSelect (lines 116-133): filter the selection to JSON-named files;
if the selection was non-empty but contains no JSON-named file, raise the alert
and return without touching state; otherwise replace `selectedFiles` with the
filtered list. -/
def handleFileSelect (st : SessionState) (files : List SelFile) : FileSelectResult :=
  let jsonFiles := jsonNamedFiles files
  if files.length > 0 ∧ jsonFiles.length = 0 then
    ⟨st, true⟩
  else
    ⟨{ st with selectedFiles := jsonFiles }, false⟩

/-- The list update of removeFile (lines 135-137): `prev.filter((_, i) => i !== index)`. -/
def removeFileList (prev : List SelFile) (index : Nat) : List SelFile :=
  ((prev.enum).filter (fun p => p.1 != index)).map Prod.snd

/-- removeFile as a state transition: it only updates `selectedFiles`. -/
def removeFile (st : SessionState) (index : Nat) : SessionState :=
  { st with selectedFiles := removeFileList st.selectedFiles index }

/-- JSON string escaping as in JSON.stringify: escape backslash and double quote.
(Control-character escapes are omitted; no string handled by the component
contains them.) -/
def escapeJsonChar (c : Char) : List Char :=
  if c = '\\' then ['\\', '\\']
  else if c = '"' then ['\\', '"']
  else [c]

/-- A JSON string literal for `s`. -/
def jsonQuote (s : String) : String :=
  "\"" ++ String.mk ((s.data.map escapeJsonChar).flatten) ++ "\""

/-- JSON.stringify of one chat-history entry, key order as declared in the source. -/
def chatMessageJson (m : ChatMessage) : String :=
  "\x7b\"role\":" ++ jsonQuote m.role ++ ",\"content\":" ++ jsonQuote m.content ++ "\x7d"

/-- Embeds `JSON.stringify(chatHistory)` (line 223): compact serialization of the array. -/
def stringifyChatHistory (l : List ChatMessage) : String :=
  "[" ++ String.intercalate (",") (l.map chatMessageJson) ++ "]"

/-- The multipart form payload of the one transport call (lines 221-233):
fields `message`, `chat_history` (a JSON-serialized string) and optional `file`. -/
structure Payload where
  message : String
  chat_history : String
  file : Option SelFile
deriving DecidableEq

/-- Outcome of the axios call: a 2xx response with parsed body, or a
network-level failure / non-2xx rejection carrying the thrown Error message
(`none` when the thrown value is not an Error instance). -/
inductive TransportOutcome where
  | success (resp : ChatResponse)
  | failure (errMsg : Option String)
deriving DecidableEq

/-- Truthiness of `response.data.error` (line 246): present and non-empty. -/
def errorTruthy (resp : ChatResponse) : Bool :=
  match resp.error with
  | some s => s != ""
  | none => false

/-- Display attachment construction (lines 192-198). -/
def mkFileAttachment (now : Nat) (mkUrl : SelFile → String) (f : SelFile) : FileAttachment :=
  { id := toString now ++ "-" ++ f.name
    name := f.name
    size := f.size
    type := f.type
    url := mkUrl f }

/-- Text of the user message (lines 202-206):
`inputValue || (selectedFiles.length > 0 ? "Sent N file(s)" : "")`. -/
def userMessageText (st : SessionState) : String :=
  if st.inputValue != "" then st.inputValue
  else if st.selectedFiles.length > 0 then
    "Sent " ++ toString st.selectedFiles.length ++ " file(s)"
  else ("")

/-- The user Message appended by handleSendMessage (lines 200-210). -/
def mkUserMessage (st : SessionState) (now : Nat) (mkUrl : SelFile → String) : Message :=
  let fileAttachments := st.selectedFiles.map (mkFileAttachment now mkUrl)
  { id := toString now
    text := userMessageText st
    sender := .user
    timestamp := now
    files := if fileAttachments.length > 0 then some fileAttachments else none }

/-- The send precondition guard (line 189):
`(!inputValue.trim() && selectedFiles.length === 0) || isLoading`. -/
def sendPrecondFails (st : SessionState) : Bool :=
  (jsTrim st.inputValue == "" && st.selectedFiles.isEmpty) || st.isLoading

/-- The state right after the synchronous setters (lines 212-217): user message
appended, input text and staged files cleared, in-flight flag set — this is the
client state at the moment the transport call is dispatched. -/
def sendDispatchState (st : SessionState) (now : Nat) (mkUrl : SelFile → String) : SessionState :=
  { st with
    messages := st.messages ++ [mkUserMessage st now mkUrl]
    inputValue := ""
    selectedFiles := []
    isLoading := true }

/-- The form payload built from the pre-send snapshots (lines 221-233): the raw
input text, the serialized current history, and — when files are staged — the
first JSON-named staged file. -/
def sendPayload (st : SessionState) : Payload :=
  { message := st.inputValue
    chat_history := stringifyChatHistory st.chatHistory
    file :=
      if st.selectedFiles.length > 0 then
        st.selectedFiles.find? (fun f => isJsonName f.name)
      else none }

/-- The bot Message built from a successful response (lines 251-256). -/
def mkBotMessage (resp : ChatResponse) (now : Nat) : Message :=
  { id := toString (now + 1)
    text := resp.message
    sender := .bot
    timestamp := now
    files := none }

/-- Text of the failure message (lines 266-273). -/
def failureText (errMsg : Option String) : String :=
  "Sorry, I encountered an error: " ++ errMsg.getD ("Unknown error")
    ++ ". Please make sure the backend server is running."

/-- The bot-authored failure Message appended in the catch block. -/
def mkErrorMessage (errMsg : Option String) (now : Nat) : Message :=
  { id := toString (now + 1)
    text := failureText errMsg
    sender := .bot
    timestamp := now
    files := none }

/-- Result of one handleSendMessage run: the final state and the list of
transport calls issued during the run. -/
structure SendResult where
  state : SessionState
  calls : List Payload
deriving DecidableEq

/-- handleSendMessage (lines 188-279).  The guard returns the state untouched
with no transport call.  Otherwise: the user message is appended and input,
files and flag updated; one transport call is issued; on a clean success the
bot message is appended and the chat history replaced wholesale; a truthy
`error` field is thrown and caught like a transport failure, appending a
failure message; the finally block clears the in-flight flag on every path.
The function is total: no exception escapes the handler. -/
def handleSendMessage (st : SessionState) (now : Nat) (mkUrl : SelFile → String)
    (outcome : TransportOutcome) : SendResult :=
  if sendPrecondFails st then ⟨st, []⟩
  else
    let st1 := sendDispatchState st now mkUrl
    let payload := sendPayload st
    match outcome with
    | .success resp =>
      if errorTruthy resp then
        ⟨{ st1 with
            messages := st1.messages ++ [mkErrorMessage resp.error now]
            isLoading := false }, [payload]⟩
      else
        ⟨{ st1 with
            messages := st1.messages ++ [mkBotMessage resp now]
            chatHistory := resp.chat_history
            isLoading := false }, [payload]⟩
    | .failure errMsg =>
        ⟨{ st1 with
            messages := st1.messages ++ [mkErrorMessage errMsg now]
            isLoading := false }, [payload]⟩

/-- copyBotMessage (lines 179-186): clipboard write of the given text, no state access. -/
def copyBotMessage (st : SessionState) (messageText : String) : SessionState × String :=
  (st, messageText)

/-! ### The JSON template and its serialization

`jsonTemplate` (lines 72-96) is a fixed object literal; both export paths
serialize it with `JSON.stringify(jsonTemplate, null, 2)`.  We embed a JSON
value type, the two-space pretty serializer matching JSON.stringify, and a
JSON parser, so the exported text can be checked to parse back to the
template value.  The serializer and parser use a fuel argument to stay
structurally recursive; any fuel at least the nesting depth (serializer)
or the token count (parser) of the input is enough. -/

/-- A JSON value (strings, non-negative integers, arrays, objects — the
fragment the template and chat history use). -/
inductive Json where
  | str (s : String)
  | num (n : Nat)
  | arr (elems : List Json)
  | obj (fields : List (String × Json))

def lbrace : Char := Char.ofNat 123

def rbrace : Char := Char.ofNat 125

/-- Two-space indentation at nesting depth `d`, as JSON.stringify(_, null, 2). -/
def indentChars (d : Nat) : List Char := List.replicate (2 * d) ' '

def joinSep (sep : List Char) : List (List Char) → List Char
  | [] => []
  | [x] => x
  | x :: y :: xs => x ++ sep ++ joinSep sep (y :: xs)

/-- Embeds `JSON.stringify(j, null, 2)` at depth `d`, with recursion fuel. -/
def stringifyPretty : Nat → Nat → Json → List Char
  | 0, _, _ => []
  | _ + 1, _, .str s => (jsonQuote s).data
  | _ + 1, _, .num n => (toString n).data
  | _ + 1, _, .arr [] => ['[', ']']
  | fuel + 1, d, .arr (e :: es) =>
      '[' :: '\n' ::
        joinSep [',', '\n']
          ((e :: es).map (fun x => indentChars (d + 1) ++ stringifyPretty fuel (d + 1) x))
        ++ '\n' :: indentChars d ++ [']']
  | _ + 1, _, .obj [] => [lbrace, rbrace]
  | fuel + 1, d, .obj (kv :: kvs) =>
      lbrace :: '\n' ::
        joinSep [',', '\n']
          ((kv :: kvs).map (fun p =>
            indentChars (d + 1) ++ (jsonQuote p.1).data ++ ':' :: ' ' ::
              stringifyPretty fuel (d + 1) p.2))
        ++ '\n' :: indentChars d ++ [rbrace]

def skipWs : List Char → List Char
  | c :: cs => if c = ' ' ∨ c = '\n' ∨ c = '\t' ∨ c = '\r' then skipWs cs else c :: cs
  | [] => []

/-- Parse the remainder of a JSON string literal (after the opening quote),
handling the escapes the serializer emits. -/
def parseStringBody : List Char → Option (List Char × List Char)
  | [] => none
  | c :: cs =>
    if c = '"' then some ([], cs)
    else if c = '\\' then
      match cs with
      | [] => none
      | e :: cs2 =>
        if e = '"' ∨ e = '\\' then
          match parseStringBody cs2 with
          | some (body, rest) => some (e :: body, rest)
          | none => none
        else none
    else
      match parseStringBody cs with
      | some (body, rest) => some (c :: body, rest)
      | none => none

def takeDigits : List Char → (List Char × List Char)
  | [] => ([], [])
  | c :: cs =>
    if c.isDigit then
      let p := takeDigits cs
      (c :: p.1, p.2)
    else ([], c :: cs)

def digitsToNat (ds : List Char) : Nat :=
  ds.foldl (fun acc c => 10 * acc + (c.toNat - 48)) 0

mutual

/-- Parse one JSON value, whitespace-tolerant. -/
def parseValue : Nat → List Char → Option (Json × List Char)
  | 0, _ => none
  | fuel + 1, cs =>
    match skipWs cs with
    | [] => none
    | c :: rest =>
      if c = '"' then
        match parseStringBody rest with
        | some (body, rest2) => some (.str (String.mk body), rest2)
        | none => none
      else if c.isDigit then
        let p := takeDigits (c :: rest)
        some (.num (digitsToNat p.1), p.2)
      else if c = '[' then
        match skipWs rest with
        | c2 :: rest2 =>
          if c2 = ']' then some (.arr [], rest2)
          else
            match parseArrayItems fuel (c2 :: rest2) with
            | some (vs, rest3) => some (.arr vs, rest3)
            | none => none
        | [] => none
      else if c = lbrace then
        match skipWs rest with
        | c2 :: rest2 =>
          if c2 = rbrace then some (.obj [], rest2)
          else
            match parseObjItems fuel (c2 :: rest2) with
            | some (kvs, rest3) => some (.obj kvs, rest3)
            | none => none
        | [] => none
      else none

/-- Parse the comma-separated elements of a non-empty array, up to `]`. -/
def parseArrayItems : Nat → List Char → Option (List Json × List Char)
  | 0, _ => none
  | fuel + 1, cs =>
    match parseValue fuel cs with
    | none => none
    | some (v, rest) =>
      match skipWs rest with
      | c :: rest2 =>
        if c = ',' then
          match parseArrayItems fuel rest2 with
          | some (vs, rest3) => some (v :: vs, rest3)
          | none => none
        else if c = ']' then some ([v], rest2)
        else none
      | [] => none

/-- Parse the comma-separated members of a non-empty object, up to the closing brace. -/
def parseObjItems : Nat → List Char → Option (List (String × Json) × List Char)
  | 0, _ => none
  | fuel + 1, cs =>
    match skipWs cs with
    | c :: rest =>
      if c = '"' then
        match parseStringBody rest with
        | some (key, rest2) =>
          match skipWs rest2 with
          | c2 :: rest3 =>
            if c2 = ':' then
              match parseValue fuel rest3 with
              | some (v, rest4) =>
                match skipWs rest4 with
                | c3 :: rest5 =>
                  if c3 = ',' then
                    match parseObjItems fuel rest5 with
                    | some (kvs, rest6) => some ((String.mk key, v) :: kvs, rest6)
                    | none => none
                  else if c3 = rbrace then some ([(String.mk key, v)], rest5)
                  else none
                | [] => none
              | none => none
            else none
          | [] => none
        | none => none
      else none
    | [] => none

end

def parserFuel : Nat := 1000

/-- Parse a complete JSON document (value followed only by whitespace). -/
def parseJson (s : String) : Option Json :=
  match parseValue parserFuel s.data with
  | some (v, rest) => if skipWs rest = [] then some v else none
  | none => none

/-- The fixed template object (lines 72-96), field order as in the source. -/
def jsonTemplate : Json :=
  .obj [("logs", .arr [
    .obj [("id", .num 1),
          ("query", .str ("SELECT * FROM users WHERE email LIKE \x27%gmail.com%\x27;")),
          ("duration_ms", .num 1200),
          ("rows", .num 10000),
          ("calls", .num 50)],
    .obj [("id", .num 2),
          ("query", .str ("INSERT INTO orders (id, amount) VALUES (1, 500);")),
          ("duration_ms", .num 15),
          ("rows", .num 1),
          ("calls", .num 200)],
    .obj [("id", .num 3),
          ("query", .str ("SELECT id, name FROM products WHERE category_id = 5;")),
          ("duration_ms", .num 130),
          ("rows", .num 300),
          ("calls", .num 80)]])]

/-- The text produced at the clipboard-copy call site (lines 156-158):
`JSON.stringify(jsonTemplate, null, 2)`. -/
def copyTemplateText : String := String.mk (stringifyPretty 16 0 jsonTemplate)

/-- The text written into the downloaded Blob (line 166):
`JSON.stringify(jsonTemplate, null, 2)`. -/
def downloadTemplateText : String := String.mk (stringifyPretty 16 0 jsonTemplate)

/-- copyJsonTemplate (lines 154-163) as a state operation: the clipboard
receives the serialized template; session state is neither read nor written. -/
def copyJsonTemplate (st : SessionState) : SessionState × String :=
  (st, copyTemplateText)

/-- downloadJsonTemplate (lines 165-177) as a state operation: the download
receives the serialized template; session state is neither read nor written. -/
def downloadJsonTemplate (st : SessionState) : SessionState × String :=
  (st, downloadTemplateText)

/-- The field names of an object value. -/
def jsonObjKeys : Json → Option (List String)
  | .obj fields => some (fields.map Prod.fst)
  | _ => none

/-! ### Initial state -/

/-- The greeting text of the initial bot message (lines 54-59). -/
def greetingText : String :=
  "Hello! I\x27m your DB Assistant. I can help you analyze database performance logs. To get started, please upload your database logs using the JSON template format. Click the \x27JSON Template\x27 button above to see the required format and download a template file."

/-- The single initial transcript entry, at abstract load time `t0`. -/
def initialGreeting (t0 : Nat) : Message :=
  { id := "1", text := greetingText, sender := .bot, timestamp := t0, files := none }

/-- The useState initial values (lines 53-65). -/
def initialState (t0 : Nat) : SessionState :=
  { messages := [initialGreeting t0]
    inputValue := ""
    isLoading := false
    selectedFiles := []
    showJsonTemplate := false
    chatHistory := [] }

/-! ### Derived notions used to state the claims -/

/-- The failure message produced by the catch block for a given outcome: a
thrown `Error(response.data.error)` for a truthy error field, or the
transport-level error. -/
def failureMessageOf (o : TransportOutcome) (now : Nat) : Message :=
  match o with
  | .success resp => mkErrorMessage resp.error now
  | .failure errMsg => mkErrorMessage errMsg now

/-- An outcome the catch block fires on: a transport-level failure, or a 2xx
response whose `error` field is present and non-empty. -/
def isFailureOutcome (o : TransportOutcome) : Bool :=
  match o with
  | .success resp => errorTruthy resp
  | .failure _ => true

/-! ### Concrete fixtures used by witnesses and counterexamples -/

/-- A session with a request in flight. -/
def wBlockedState : SessionState := { initialState 0 with isLoading := true }

/-- A session whose pending text is the spec scenario query. -/
def wSendState : SessionState := { initialState 0 with inputValue := "show slow queries" }

/-- The spec scenario response. -/
def wResp : ChatResponse :=
  { message := "Query X is slow"
    chat_history := [{ role := "user", content := "show slow queries" },
                     { role := "assistant", content := "Query X is slow" }]
    error := none }

/-- A staged JSON-named file and a non-JSON selection, used to exercise
handleFileSelect concretely. -/
def stagedJsonFile : SelFile := { name := "logs.json", size := 20, type := "application/json" }

def notesTxtFile : SelFile := { name := "notes.txt", size := 10, type := "text/plain" }

def priorStagedState : SessionState := { initialState 0 with selectedFiles := [stagedJsonFile] }

/-! ### Helper lemmas -/

/-- The Boolean guard of line 189 holds exactly when the pending text trims to
empty and no file is staged, or a request is in flight. -/
theorem sendPrecondFails_iff (st : SessionState) :
    sendPrecondFails st = true
      ↔ ((jsTrim st.inputValue = "" ∧ st.selectedFiles = []) ∨ st.isLoading = true) := by
  unfold sendPrecondFails
  simp [List.isEmpty_iff]

/-! ### Claims -/

/-- C10: at fresh session start, before any operation runs, the transcript
holds exactly one Message, authored by the bot, carrying the JSON-template
greeting and no file attachments. -/
theorem initial_transcript_is_single_bot_greeting (t0 : Nat) :
    (initialState t0).messages = [initialGreeting t0]
    ∧ (initialState t0).messages.length = 1
    ∧ (initialGreeting t0).sender = .bot
    ∧ (initialGreeting t0).files = none
    ∧ (initialGreeting t0).text = greetingText :=
  ⟨rfl, rfl, rfl, rfl, rfl⟩

/-- C3: send() is a no-op — state untouched, no transport call issued — when
the pending text is empty or whitespace-only and no file is staged, or when a
request is already in flight. -/
theorem send_noop_when_blocked (st : SessionState) (now : Nat)
    (mkUrl : SelFile → String) (o : TransportOutcome)
    (h : (jsTrim st.inputValue = "" ∧ st.selectedFiles = []) ∨ st.isLoading = true) :
    handleSendMessage st now mkUrl o = ⟨st, []⟩ := by
  have hb : sendPrecondFails st = true := (sendPrecondFails_iff st).mpr h
  unfold handleSendMessage
  simp [hb]


/-- Witness for C3 at a concrete in-flight state. -/
theorem send_noop_when_blocked_witness :
    handleSendMessage wBlockedState 7 (fun _ => "blob:a") (.failure none)
      = ⟨wBlockedState, []⟩ :=
  send_noop_when_blocked wBlockedState 7 (fun _ => "blob:a") (.failure none) (Or.inr rfl)

/-- C1: when send() passes its precondition and the transport call succeeds
with no error field, exactly the user message then the bot message built from
the response text are appended, and the chat history is replaced wholesale by
the response's chat_history. -/
theorem send_success_appends_two_and_replaces_history
    (st : SessionState) (now : Nat) (mkUrl : SelFile → String) (resp : ChatResponse)
    (hpre : sendPrecondFails st = false) (herr : resp.error = none) :
    (handleSendMessage st now mkUrl (.success resp)).state.messages
        = st.messages ++ [mkUserMessage st now mkUrl, mkBotMessage resp now]
    ∧ (handleSendMessage st now mkUrl (.success resp)).state.chatHistory
        = resp.chat_history := by
  have ht : errorTruthy resp = false := by unfold errorTruthy; rw [herr]
  unfold handleSendMessage
  simp [hpre, ht, sendDispatchState]


/-- Witness for C1 at a concrete state and response. -/
theorem send_success_appends_two_and_replaces_history_witness :
    (handleSendMessage wSendState 3 (fun _ => "blob:b") (.success wResp)).state.messages
        = wSendState.messages
            ++ [mkUserMessage wSendState 3 (fun _ => "blob:b"), mkBotMessage wResp 3]
    ∧ (handleSendMessage wSendState 3 (fun _ => "blob:b") (.success wResp)).state.chatHistory
        = wResp.chat_history :=
  send_success_appends_two_and_replaces_history wSendState 3 (fun _ => "blob:b") wResp
    (by decide) rfl

/-- C2: when send() passes its precondition and the exchange fails — network
failure or a 2xx response with a non-empty error field, treated alike — exactly
the user message and one bot-authored failure message are appended, the chat
history is unchanged, and the in-flight flag ends cleared; the embedding of the
handler is a total function, reflecting that no exception escapes it. -/
theorem send_failure_appends_two_keeps_history
    (st : SessionState) (now : Nat) (mkUrl : SelFile → String) (o : TransportOutcome)
    (hpre : sendPrecondFails st = false) (hfail : isFailureOutcome o = true) :
    (handleSendMessage st now mkUrl o).state.messages
        = st.messages ++ [mkUserMessage st now mkUrl, failureMessageOf o now]
    ∧ (handleSendMessage st now mkUrl o).state.chatHistory = st.chatHistory
    ∧ (handleSendMessage st now mkUrl o).state.isLoading = false
    ∧ (failureMessageOf o now).sender = .bot := by
  unfold handleSendMessage
  cases o with
  | success resp =>
    have ht : errorTruthy resp = true := hfail
    simp [hpre, ht, sendDispatchState, failureMessageOf, mkErrorMessage]
  | failure errMsg =>
    simp [hpre, sendDispatchState, failureMessageOf, mkErrorMessage]

/-- Witness for C2 at a concrete state and a response carrying an error field. -/
theorem send_failure_appends_two_keeps_history_witness :
    (handleSendMessage wSendState 3 (fun _ => "blob:c")
        (.success { message := "", chat_history := [], error := some ("boom") })).state.messages
        = wSendState.messages
            ++ [mkUserMessage wSendState 3 (fun _ => "blob:c"),
                failureMessageOf (.success { message := "", chat_history := [], error := some ("boom") }) 3]
    ∧ (handleSendMessage wSendState 3 (fun _ => "blob:c")
        (.success { message := "", chat_history := [], error := some ("boom") })).state.chatHistory
        = wSendState.chatHistory
    ∧ (handleSendMessage wSendState 3 (fun _ => "blob:c")
        (.success { message := "", chat_history := [], error := some ("boom") })).state.isLoading = false
    ∧ (failureMessageOf (.success { message := "", chat_history := [], error := some ("boom") }) 3).sender = .bot :=
  send_failure_appends_two_keeps_history wSendState 3 (fun _ => "blob:c")
    (.success { message := "", chat_history := [], error := some ("boom") }) (by decide) (by decide)

/-- The payload's file part is the first JSON-named staged file, none when no
staged file qualifies (the `currentFiles.length > 0` guard adds nothing, since
`find?` on the empty list is already `none`). -/
theorem sendPayload_file (st : SessionState) :
    sendPayload st
      = { message := st.inputValue
          chat_history := stringifyChatHistory st.chatHistory
          file := st.selectedFiles.find? (fun f => isJsonName f.name) } := by
  unfold sendPayload
  cases st.selectedFiles with
  | nil => simp
  | cons a l => simp

/-- C5: every send() that passes its precondition issues exactly one transport
call, whose payload carries the pending text as `message`, the JSON-serialized
current history as `chat_history`, and at most one file — the first JSON-named
staged file when one exists, no file part otherwise. -/
theorem send_issues_exactly_one_call
    (st : SessionState) (now : Nat) (mkUrl : SelFile → String) (o : TransportOutcome)
    (hpre : sendPrecondFails st = false) :
    (handleSendMessage st now mkUrl o).calls
      = [{ message := st.inputValue
           chat_history := stringifyChatHistory st.chatHistory
           file := st.selectedFiles.find? (fun f => isJsonName f.name) }] := by
  unfold handleSendMessage
  cases o with
  | success resp =>
    by_cases ht : errorTruthy resp <;> simp [hpre, ht, sendPayload_file]
  | failure errMsg =>
    simp [hpre, sendPayload_file]

/-- Witness for C5: the spec scenario — text `"show slow queries"`, no staged
file, empty history — yields one call with that text, serialized empty history
`[]`, and no file part. -/
theorem send_issues_exactly_one_call_witness :
    (handleSendMessage wSendState 3 (fun _ => "blob:d") (.failure none)).calls
      = [{ message := wSendState.inputValue
           chat_history := stringifyChatHistory wSendState.chatHistory
           file := wSendState.selectedFiles.find? (fun f => isJsonName f.name) }] :=
  send_issues_exactly_one_call wSendState 3 (fun _ => "blob:d") (.failure none) (by decide)

/-- C6: on every send() that passes its precondition, the pending text and the
staged files are already cleared in the state at which the transport call is
dispatched, and they are still cleared in the final state regardless of the
outcome — nothing restores them on failure. -/
theorem send_clears_input_and_staged_files
    (st : SessionState) (now : Nat) (mkUrl : SelFile → String)
    (hpre : sendPrecondFails st = false) :
    (sendDispatchState st now mkUrl).inputValue = ""
    ∧ (sendDispatchState st now mkUrl).selectedFiles = []
    ∧ ∀ o : TransportOutcome,
        (handleSendMessage st now mkUrl o).state.inputValue = ""
        ∧ (handleSendMessage st now mkUrl o).state.selectedFiles = [] := by
  refine ⟨rfl, rfl, fun o => ?_⟩
  unfold handleSendMessage
  cases o with
  | success resp =>
    by_cases ht : errorTruthy resp <;> simp [hpre, ht, sendDispatchState]
  | failure errMsg =>
    simp [hpre, sendDispatchState]

/-- Witness for C6 at a concrete state holding both text and a staged file. -/
theorem send_clears_input_and_staged_files_witness :
    (sendDispatchState wSendState 9 (fun _ => "blob:e")).inputValue = ""
    ∧ (sendDispatchState wSendState 9 (fun _ => "blob:e")).selectedFiles = []
    ∧ (handleSendMessage wSendState 9 (fun _ => "blob:e") (.failure none)).state.inputValue = ""
    ∧ (handleSendMessage wSendState 9 (fun _ => "blob:e") (.failure none)).state.selectedFiles = [] :=
  ⟨(send_clears_input_and_staged_files wSendState 9 (fun _ => "blob:e") (by decide)).1,
   (send_clears_input_and_staged_files wSendState 9 (fun _ => "blob:e") (by decide)).2.1,
   ((send_clears_input_and_staged_files wSendState 9 (fun _ => "blob:e") (by decide)).2.2
      (.failure none)).1,
   ((send_clears_input_and_staged_files wSendState 9 (fun _ => "blob:e") (by decide)).2.2
      (.failure none)).2⟩

/-- C7: the message log is append-only under every operation of the component:
file staging, unstaging, send in every outcome, the two template exports and
the message copy each leave the transcript equal to the old transcript followed
by some (possibly empty) tail — no entry is modified, reordered or removed. -/
theorem message_log_append_only (st : SessionState) :
    (∀ files, ∃ t, (handleFileSelect st files).state.messages = st.messages ++ t)
    ∧ (∀ i, ∃ t, (removeFile st i).messages = st.messages ++ t)
    ∧ (∀ now mkUrl o, ∃ t,
        (handleSendMessage st now mkUrl o).state.messages = st.messages ++ t)
    ∧ (∀ s, ∃ t, (copyBotMessage st s).1.messages = st.messages ++ t)
    ∧ (∃ t, (copyJsonTemplate st).1.messages = st.messages ++ t)
    ∧ (∃ t, (downloadJsonTemplate st).1.messages = st.messages ++ t) := by
  refine ⟨fun files => ⟨[], ?_⟩, fun i => ⟨[], by simp [removeFile]⟩,
          fun now mkUrl o => ?_, fun s => ⟨[], by simp [copyBotMessage]⟩,
          ⟨[], by simp [copyJsonTemplate]⟩, ⟨[], by simp [downloadJsonTemplate]⟩⟩
  · simp only [handleFileSelect, List.append_nil]
    split <;> rfl
  · unfold handleSendMessage
    by_cases hpre : sendPrecondFails st
    · exact ⟨[], by simp [hpre]⟩
    · cases o with
      | success resp =>
        by_cases ht : errorTruthy resp
        · exact ⟨[mkUserMessage st now mkUrl, mkErrorMessage resp.error now],
            by simp [hpre, ht, sendDispatchState]⟩
        · exact ⟨[mkUserMessage st now mkUrl, mkBotMessage resp now],
            by simp [hpre, ht, sendDispatchState]⟩
      | failure errMsg =>
        exact ⟨[mkUserMessage st now mkUrl, mkErrorMessage errMsg now],
          by simp [hpre, sendDispatchState]⟩

/-- Keeping every pair whose index differs from `i` and dropping the indices
removes exactly the element at position `i - n` of an `enumFrom n` listing
(and nothing when `i` is below `n` or beyond the end). -/
theorem enumFrom_filter_ne_map_snd (l : List SelFile) (n i : Nat) :
    ((List.enumFrom n l).filter (fun p => p.1 != i)).map Prod.snd
      = if i < n then l
        else if i - n < l.length then l.take (i - n) ++ l.drop (i - n + 1)
        else l := by
  induction l generalizing n with
  | nil => simp
  | cons a l ih =>
    simp only [List.enumFrom, List.filter_cons]
    rcases Nat.lt_trichotomy i n with hlt | heq | hgt
    · have hne : (n != i) = true := by simp; omega
      rw [if_pos hne, List.map_cons, ih (n + 1)]
      have h1 : i < n + 1 := Nat.lt_succ_of_lt hlt
      simp [hlt, h1]
    · subst heq
      have heq2 : ¬ ((i != i) = true) := by simp
      rw [if_neg heq2, ih (i + 1)]
      have h1 : i < i + 1 := Nat.lt_succ_self i
      simp [h1, Nat.lt_irrefl]
    · have hne : (n != i) = true := by simp; omega
      rw [if_pos hne, List.map_cons, ih (n + 1)]
      have h1 : ¬ i < n + 1 := by omega
      have h2 : ¬ i < n := by omega
      have hin : i - n = (i - (n + 1)) + 1 := by omega
      by_cases hk : i - (n + 1) < l.length
      · have hk2 : i - n < l.length + 1 := by omega
        simp only [h1, if_false, h2, hk, if_true, List.length_cons, hk2, hin,
          List.take_succ_cons, List.drop_succ_cons, List.cons_append]
        rw [if_pos (by omega : i - (n + 1) + 1 < l.length + 1)]
      · have hk2 : ¬ i - n < l.length + 1 := by omega
        simp [h1, h2, hk, hk2]

/-- The indexed filter of removeFile erases exactly the entry at the given
position, or nothing when the index is out of bounds. -/
theorem removeFileList_eq (l : List SelFile) (i : Nat) :
    removeFileList l i
      = if i < l.length then l.take i ++ l.drop (i + 1) else l := by
  unfold removeFileList
  rw [show l.enum = List.enumFrom 0 l from rfl, enumFrom_filter_ne_map_snd]
  simp

/-- C8: unstageFile(index) with an in-bounds index removes exactly the staged
file at that position, keeping all others in relative order; with an
out-of-bounds index it is a no-op; it never touches the transcript or the chat
history. -/
theorem unstageFile_removes_exactly_index (st : SessionState) (i : Nat) :
    (removeFile st i).selectedFiles
      = (if i < st.selectedFiles.length
         then st.selectedFiles.take i ++ st.selectedFiles.drop (i + 1)
         else st.selectedFiles)
    ∧ (removeFile st i).messages = st.messages
    ∧ (removeFile st i).chatHistory = st.chatHistory :=
  ⟨removeFileList_eq st.selectedFiles i, rfl, rfl⟩


/-- C4 counterexample: with `logs.json` already staged, staging the selection
`[notes.txt]` does NOT leave the staged set equal to the JSON-named files of
that most recent selection (the empty set) — the early return keeps the prior
staged set, refuting the claim that the staged set always equals the latest
selection's JSON-named files and in particular that it becomes empty. -/
theorem stageFiles_counterexample :
    (handleFileSelect priorStagedState [notesTxtFile]).state.selectedFiles
      ≠ jsonNamedFiles [notesTxtFile] := by decide

/-- C4 (amended): after each stageFiles call whose selection is empty or
contains at least one JSON-named file, the staged set equals exactly the
JSON-named files of that most recent selection (never a union across calls);
a call whose non-empty selection contains no JSON-named file raises the
non-blocking warning and leaves the staged set unchanged — so it ends empty
only if it was already empty.  The transcript and history are untouched. -/
theorem stageFiles_replaces_with_json_or_warns_unchanged
    (st : SessionState) (files : List SelFile) :
    (handleFileSelect st files).state.selectedFiles
      = (if files ≠ [] ∧ jsonNamedFiles files = []
         then st.selectedFiles else jsonNamedFiles files)
    ∧ (handleFileSelect st files).warned
        = decide (files ≠ [] ∧ jsonNamedFiles files = [])
    ∧ (handleFileSelect st files).state.messages = st.messages
    ∧ (handleFileSelect st files).state.chatHistory = st.chatHistory := by
  have hiff : (files.length > 0 ∧ (jsonNamedFiles files).length = 0)
      ↔ (files ≠ [] ∧ jsonNamedFiles files = []) := by
    constructor
    · rintro ⟨h1, h2⟩
      exact ⟨List.ne_nil_of_length_pos h1, List.length_eq_zero.mp h2⟩
    · rintro ⟨h1, h2⟩
      exact ⟨List.length_pos.mpr h1, by rw [h2]; rfl⟩
  simp only [handleFileSelect]
  by_cases h : files ≠ [] ∧ jsonNamedFiles files = []
  · rw [if_pos (hiff.mpr h), if_pos h]
    exact ⟨rfl, (decide_eq_true h).symm, rfl, rfl⟩
  · rw [if_neg (fun hc => h (hiff.mp hc)), if_neg h]
    exact ⟨rfl, (decide_eq_false h).symm, rfl, rfl⟩

/-- C9: the clipboard-copy path and the file-download path serialize the very
same template with the same `JSON.stringify(_, null, 2)` call and so produce
byte-identical text; that text parses back exactly to the template value,
whose `logs` field is an array of exactly three records each carrying exactly
the fields id, query, duration_ms, rows, calls; and neither export operation
reads or writes any session state. -/
theorem template_export_identical_and_wellformed :
    copyTemplateText = downloadTemplateText
    ∧ parseJson copyTemplateText = some jsonTemplate
    ∧ (∃ r1 r2 r3, jsonTemplate = .obj [("logs", .arr [r1, r2, r3])]
        ∧ jsonObjKeys r1 = some ["id", "query", "duration_ms", "rows", "calls"]
        ∧ jsonObjKeys r2 = some ["id", "query", "duration_ms", "rows", "calls"]
        ∧ jsonObjKeys r3 = some ["id", "query", "duration_ms", "rows", "calls"])
    ∧ (∀ st, (copyJsonTemplate st).1 = st ∧ (downloadJsonTemplate st).1 = st
        ∧ (copyJsonTemplate st).2 = (downloadJsonTemplate st).2) :=
  ⟨rfl, rfl, ⟨_, _, _, rfl, rfl, rfl, rfl⟩, fun _ => ⟨rfl, rfl, rfl⟩⟩

end ChatInterface
